import Mathlib

/-!
Shallow embedding of the Fit-App backend: the JSON-like values the service
passes around, the repository layer over the document store (src/profiles.py),
the AI-gateway request building and response parsing (src/AI.py), and the
HTTP endpoint handlers (src/app.py). Definitions follow the Python source;
external collaborators (the AstraDB document store, the LangFlow engine)
are modelled only through the interface the source code uses.
-/

/-- JSON-like Python values: the payloads, documents and profile fields the
service manipulates. -/
inductive PyVal where
  | str : String → PyVal
  | int : Int → PyVal
  | bool : Bool → PyVal
  | none : PyVal
  | list : List PyVal → PyVal
  | dict : List (String × PyVal) → PyVal

/-- A Python dict, as an insertion-ordered association list. -/
abbrev PyDict := List (String × PyVal)

/-- First-match key lookup in a Python dict (`d[k]` / `d.get(k)`). -/
def dlookup (d : PyDict) (k : String) : Option PyVal :=
  match d with
  | [] => Option.none
  | (k2, v) :: rest => if k2 = k then some v else dlookup rest k

mutual

/-- Python `repr` of a value (used by `str` on dicts and lists). -/
def pyRepr : PyVal → String
  | .str s => "\x27" ++ s ++ "\x27"
  | .int n => toString n
  | .bool b => if b then "True" else "False"
  | .none => "None"
  | .list l => "[" ++ String.intercalate ", " (pyReprList l) ++ "]"
  | .dict d => "\x7b" ++ String.intercalate ", " (pyReprDict d) ++ "\x7d"

/-- `repr` of each element of a list. -/
def pyReprList : List PyVal → List String
  | [] => []
  | v :: vs => pyRepr v :: pyReprList vs

/-- `repr` of each `key: value` entry of a dict. -/
def pyReprDict : List (String × PyVal) → List String
  | [] => []
  | (k, v) :: es => ("\x27" ++ k ++ "\x27: " ++ pyRepr v) :: pyReprDict es

end

/-- Python `str` of a value (`str` is identity on strings, `repr` otherwise
for the value shapes the service sees). -/
def pyStr : PyVal → String
  | .str s => s
  | v => pyRepr v

/-- Python truthiness of a value. -/
def truthy : PyVal → Bool
  | .str s => !s.isEmpty
  | .int n => n != 0
  | .bool b => b
  | .none => false
  | .list l => !l.isEmpty
  | .dict d => !d.isEmpty

/-- `v in ("", None)` — the emptiness test used for extra profile fields. -/
def isEmptyish : PyVal → Bool
  | .str "" => true
  | .none => true
  | _ => false

/-- Python dict assignment `d[k] = v`: replace in place if the key exists
(keys of a Python dict are unique, so replacing the first occurrence is
exact), else append at the end (insertion order). -/
def setKey : PyDict → String → PyVal → PyDict
  | [], k, v => [(k, v)]
  | (k2, w) :: rest, k, v =>
      if k2 = k then (k, v) :: rest else (k2, w) :: setKey rest k v

/-- Python `d.update(kw)`: assign every entry of `kw` into `d` in order. -/
def dictUpdate (d kw : PyDict) : PyDict :=
  kw.foldl (fun acc p => setKey acc p.1 p.2) d

/-! ## AI Gateway (src/AI.py)

The environment is a partial map from variable names to values
(`os.environ.get`). The gateway functions are modelled up to the point at
which the outbound HTTP request is issued: `.ok url` means the function
reaches `requests.post` with that request URL, `.error msg` means it raises
(`ValueError`, the code's configuration error) before any request is made.
-/

/-- An environment: `os.environ.get name` as an optional string. -/
abbrev Env := String → Option String

/-- `env.get name` is falsy when the variable is absent or empty
(`if not api_key`). -/
def envFalsy (e : Option String) : Bool :=
  match e with
  | Option.none => true
  | some s => s.isEmpty

/-- `_get_headers` from src/AI.py: requires `LANGFLOW_API_KEY`, else raises. -/
def get_headers (env : Env) : Except String (List (String × String)) :=
  let api_key := env "LANGFLOW_API_KEY"
  if envFalsy api_key then
    .error "LANGFLOW_API_KEY environment variable is not set."
  else
    .ok [("x-api-key", (api_key.getD ""))]

/-- Python `s.rstrip(c)`: drop trailing occurrences of the character. -/
def rstripChar (s : String) (c : Char) : String :=
  String.mk ((s.toList.reverse.dropWhile (fun x => x = c)).reverse)

/-- `_call_flow` from src/AI.py, up to the outbound request: reads
`LANGFLOW_BASE_URL` with default `http://localhost:7860`, dead-checks it for
emptiness, builds the request URL, and evaluates `_get_headers()` (inside the
pre-request debug print) before `requests.post` runs. `.ok url` means the
POST to `url` is attempted. -/
def call_flow_request (env : Env) (flow_path : String) : Except String String :=
  let base_url := (env "LANGFLOW_BASE_URL").getD "http://localhost:7860"
  if base_url.isEmpty then
    .error "LANGFLOW_BASE_URL environment variable is not set."
  else
    let url := rstripChar base_url '/' ++ "/api/v1/run/" ++ flow_path
    match get_headers env with
    | .error e => .error e
    | .ok _ => .ok url

/-- `get_workout_recommendation` from src/AI.py, up to the outbound request:
calls `_call_flow("ask-ai-v2-1", ...)`; any exception is re-raised as
`ValueError("Failed to get workout recommendation: ...")`. -/
def get_workout_recommendation_request (env : Env) : Except String String :=
  match call_flow_request env "ask-ai-v2-1" with
  | .error e => .error ("Failed to get workout recommendation: " ++ e)
  | .ok url => .ok url

/-- `get_macro_plan` from src/AI.py, up to the outbound request: calls
`_call_flow` with the macro-plan flow id. -/
def get_macro_plan_request (env : Env) : Except String String :=
  call_flow_request env "03ffb633-f1e5-42d6-84c9-e02b4cee1f41"

/-- Python subscript `v[k]` with a string key: succeeds only on a dict that
has the key; a missing key (`KeyError`) or a non-dict value (`TypeError`,
or `KeyError` on a string index) yields `Option.none` — `_extract_text`
catches all of these. -/
def pyGetStr (v : PyVal) (k : String) : Option PyVal :=
  match v with
  | .dict d => dlookup d k
  | _ => Option.none

/-- Python subscript `v[0]`: first element of a list, first character of a
string; anything else (`KeyError` on a dict with integer key, `TypeError`,
`IndexError` on an empty sequence) yields `Option.none`. -/
def pyGetZero (v : PyVal) : Option PyVal :=
  match v with
  | .list l => l.head?
  | .str s => (s.toList.head?).map (fun c => PyVal.str (String.mk [c]))
  | _ => Option.none

/-- The old-format path
`payload["outputs"][0]["outputs"][0]["results"]["text"]["data"]["text"]`
from `_extract_text`; `Option.none` when any step raises
`KeyError`/`IndexError`/`TypeError` (all caught by the source). -/
def old_format_text (entries : PyDict) : Option PyVal :=
  ((((((dlookup entries "outputs").bind pyGetZero).bind
    (fun v => pyGetStr v "outputs")).bind pyGetZero).bind
    (fun v => pyGetStr v "results")).bind
    (fun v => pyGetStr v "text")).bind
    (fun v => pyGetStr v "data") |>.bind (fun v => pyGetStr v "text")

/-- `_extract_text` from src/AI.py: on a dict, try the top-level `result`
key, then the nested old-format path, then `response`, then `text`; if none
match — or the payload is not a dict — fall through to `return
str(response_payload)`. `.error` would mean the trailing
`raise ValueError(...)` runs, which requires an exception the earlier code
cannot produce on these value shapes, so every branch is `.ok`. -/
def extract_text (response_payload : PyVal) : Except String String :=
  match response_payload with
  | .dict entries =>
    match dlookup entries "result" with
    | some v => .ok (pyStr v)
    | Option.none =>
      match old_format_text entries with
      | some t => .ok (pyStr t)
      | Option.none =>
        match dlookup entries "response" with
        | some v => .ok (pyStr v)
        | Option.none =>
          match dlookup entries "text" with
          | some v => .ok (pyStr v)
          | Option.none => .ok (pyStr response_payload)
  | _ => .ok (pyStr response_payload)

/-! ## Repository layer (src/profiles.py) over the document store

The store is the list of documents of a collection, in insertion order.
`insert_one` responds with the AstraDB shape `{"status": {"insertedIds":
[...]}}` — the shape this repository itself decodes in `add_note`.
-/

/-- A collection of documents. -/
abbrev DB := List PyDict

/-- Does a stored document match the filter `{"_id": user_id}`? -/
def idMatches (d : PyDict) (user_id : String) : Bool :=
  match dlookup d "_id" with
  | some (.str s) => s = user_id
  | _ => false

/-- `collection.insert_one(doc)`: append the document; the AstraDB response
carries the inserted id under `status.insertedIds`. -/
def insert_one (db : DB) (doc : PyDict) : DB × PyVal :=
  (db ++ [doc],
   .dict [("status", .dict [("insertedIds",
     .list [(dlookup doc "_id").getD PyVal.none])])])

/-- `collection.update_one({"_id": user_id}, {"$set": set_data})`: apply the
`$set` fields to the first matching document. -/
def update_one (db : DB) (user_id : String) (set_data : PyDict) : DB :=
  match db with
  | [] => []
  | d :: rest =>
    if idMatches d user_id then dictUpdate d set_data :: rest
    else d :: update_one rest user_id set_data

/-- `get_default_profile` from src/profiles.py. -/
def get_default_profile (user_id : String) : PyDict :=
  [("_id", .str user_id),
   ("general", .dict
     [("name", .str ""),
      ("age", .int 30),
      ("weight", .int 70),
      ("height", .int 170),
      ("activity_level", .str "Moderately Active"),
      ("gender", .str "Male")]),
   ("goals", .list [.str "Muscle Gain"]),
   ("nutrition", .dict
     [("calories", .int 2000),
      ("protein", .int 140),
      ("fat", .int 65),
      ("carbs", .int 200)])]

/-- `create_profile` from src/profiles.py: insert the default profile, then
read `result["id"]` from the insert response. The AstraDB response has no
top-level `id` key (the id sits under `status.insertedIds`), so this lookup
raises `KeyError` — after the document has already been inserted. -/
def create_profile (db : DB) (user_id : String) :
    Except String PyDict × DB :=
  let profile_values := get_default_profile user_id
  let (db2, result) := insert_one db profile_values
  match pyGetStr result "id" with
  | some idv => (.ok (setKey profile_values "_id" (.str (pyStr idv))), db2)
  | Option.none => (.error "KeyError: id", db2)

/-- `get_profile` from src/profiles.py:
`collection.find_one({"_id": user_id})`. -/
def get_profile (db : DB) (user_id : String) : Option PyDict :=
  db.find? (fun d => idMatches d user_id)

/-- The `existing = get_profile(...); if not existing:` idiom shared by
`update_profile` and both profile endpoints: a profile counts as absent
when the lookup misses or returns a falsy (empty) document. -/
def fetch_truthy (db : DB) (user_id : String) : Option PyDict :=
  match get_profile db user_id with
  | some e => if e.isEmpty then Option.none else some e
  | Option.none => Option.none

/-- The sub-object branch of `update_profile`:
`existing[field].update(kwargs)` followed by persisting
`{field: existing[field]}`. Raises (`KeyError`/`AttributeError`) when
`existing` has no such field or it is not a dict. -/
def update_profile_sub (db : DB) (user_id : String) (existing : PyDict)
    (field : String) (kwargs : PyDict) : Except String PyDict × DB :=
  match dlookup existing field with
  | some (.dict sub) =>
    let sub2 := dictUpdate sub kwargs
    (.ok (setKey existing field (.dict sub2)),
     update_one db user_id [(field, .dict sub2)])
  | some _ => (.error "AttributeError: update", db)
  | Option.none => (.error ("KeyError: " ++ field), db)

/-- `update_profile` from src/profiles.py: fetch the profile (creating the
default when absent or falsy); for `"goals"` assign
`kwargs.get("goals", [])` wholesale; for `"nutrition"` — and any other
field — shallow-merge `kwargs` into the existing sub-dict; persist the
touched group with `$set`. -/
def update_profile (db : DB) (user_id update_field : String)
    (kwargs : PyDict) : Except String PyDict × DB :=
  match fetch_truthy db user_id with
  | Option.none =>
    -- `existing = create_profile(user_id)` — raises in this code base
    -- (see `create_profile`), after inserting the default document.
    match create_profile db user_id with
    | (.error e, db2) => (.error e, db2)
    | (.ok e, db2) =>
      if update_field = "goals" then
        let goals := (dlookup kwargs "goals").getD (.list [])
        (.ok (setKey e "goals" goals),
         update_one db2 user_id [("goals", goals)])
      else if update_field = "nutrition" then
        update_profile_sub db2 user_id e "nutrition" kwargs
      else
        update_profile_sub db2 user_id e update_field kwargs
  | some existing =>
    if update_field = "goals" then
      let goals := (dlookup kwargs "goals").getD (.list [])
      (.ok (setKey existing "goals" goals),
       update_one db user_id [("goals", goals)])
    else if update_field = "nutrition" then
      update_profile_sub db user_id existing "nutrition" kwargs
    else
      update_profile_sub db user_id existing update_field kwargs

/-- Does a note match the filter `{"user_id": user_id}`? -/
def userMatches (d : PyDict) (user_id : String) : Bool :=
  match dlookup d "user_id" with
  | some (.str s) => s = user_id
  | _ => false

/-- The notes collection `find(filter={"user_id": ...}, sort={"$vectorize":
...})`: the external store returns the documents matching the equality
filter, ranked by similarity to the query — the ranking is an oracle
`rank` supplied by the store. -/
def notes_find (notes : DB) (user_id search_text : String)
    (rank : String → DB → DB) : DB :=
  rank search_text (notes.filter (fun n => userMatches n user_id))

/-- `search_similar_notes` from src/profiles.py: run the vectorized `find`
(which may raise — `failure = some e` models an exception from the store
call), then truncate client-side: the loop `if len(results) >= limit:
break` keeps exactly the first `limit` results. On any failure, log and
return `[]`. -/
def search_similar_notes (rank : String → DB → DB)
    (failure : Option String) (notes : DB)
    (search_text user_id : String) (limit : Nat) : DB :=
  match failure with
  | some _ => []
  | Option.none =>
    let all_results := notes_find notes user_id search_text rank
    all_results.take limit

/-! ## HTTP API (src/app.py) -/

/-- One recognized profile field of `_profile_dict_to_string`: a labeled
fragment when the field is present and truthy, nothing otherwise. -/
def segOf (profile : PyDict) (k : String) (fmt : PyVal → String) :
    List String :=
  match dlookup profile k with
  | some v => if truthy v then [fmt v] else []
  | Option.none => []

/-- The recognized keys excluded from the extras of
`_profile_dict_to_string`. -/
def recognizedKeys : List String :=
  ["name", "age", "gender", "height", "weight", "bodyFat", "activity",
   "goal"]

/-- The `segments` list built by `_profile_dict_to_string`: the eight
recognized fields in order, then every remaining non-empty field as
`key: value`. -/
def profileSegments (profile : PyDict) : List String :=
  segOf profile "name" (fun v => "Name: " ++ pyStr v) ++
  segOf profile "age" (fun v => "Age " ++ pyStr v) ++
  segOf profile "gender" (fun v => "Gender " ++ pyStr v) ++
  segOf profile "height" (fun v => "Height " ++ pyStr v ++ " cm") ++
  segOf profile "weight" (fun v => "Weight " ++ pyStr v ++ " kg") ++
  segOf profile "bodyFat" (fun v => "Body fat " ++ pyStr v ++ " %") ++
  segOf profile "activity" (fun v => "Activity level " ++ pyStr v) ++
  segOf profile "goal" (fun v => "Primary goal " ++ pyStr v) ++
  (profile.filter
    (fun e => !(recognizedKeys.contains e.1) && !(isEmptyish e.2))).map
    (fun e => e.1 ++ ": " ++ pyStr e.2)

/-- `_profile_dict_to_string` from src/app.py:
`", ".join(segments) if segments else "No profile details provided"`. -/
def profile_dict_to_string (profile : PyDict) : String :=
  let segments := profileSegments profile
  if segments.isEmpty then "No profile details provided"
  else String.intercalate ", " segments

/-- HTTP failure: status code and detail string. -/
abbrev HTTPErr := Nat × String

/-- Python tuple unpacking `a, b = d` of a dict: iterating a dict yields
its keys; unpacking requires exactly two of them, otherwise `ValueError`. -/
def unpack2keys (d : PyDict) : Except String (String × String) :=
  match d.map Prod.fst with
  | [a, b] => .ok (a, b)
  | _ => .error "ValueError: not exactly two values to unpack"

/-- `GET /profile/{user_id}` from src/app.py: return the stored profile; on
a falsy lookup run `user_id, profile = create_profile(user_id)` — in this
code base `create_profile` raises, and were it to return, its four-key dict
would fail the two-name tuple unpacking. Any exception becomes a 500. -/
def get_user_profile (db : DB) (user_id : String) :
    Except HTTPErr PyVal × DB :=
  match fetch_truthy db user_id with
  | some profile =>
    (.ok (.dict [("userId", .str user_id), ("profile", .dict profile)]), db)
  | Option.none =>
    match create_profile db user_id with
    | (.error e, db2) =>
      (.error (500, "Failed to retrieve profile: " ++ e), db2)
    | (.ok p, db2) =>
      match unpack2keys p with
      | .error e => (.error (500, "Failed to retrieve profile: " ++ e), db2)
      | .ok (uid2, prof) =>
        (.ok (.dict [("userId", .str uid2), ("profile", .str prof)]), db2)

/-- A `POST /profile` body: optional user id and the three field groups. -/
structure ProfileRequest where
  userId : Option String
  general : Option PyDict
  goals : Option (List PyVal)
  nutrition : Option PyDict

/-- Python `f(**v)`: the argument after `**` must be a mapping; the goals
group is a list, so unpacking it raises `TypeError`. -/
def kwargsOf : PyVal → Except String PyDict
  | .dict d => .ok d
  | _ => .error "TypeError: argument after ** must be a mapping"

/-- The tail of `POST /profile` once `user_id` and `existing` are resolved:
collect the supplied groups in the fixed order general, goals, nutrition;
if any, call `update_profile` on the FIRST one only —
`update_profile(user_id, list(update_data.keys())[0],
**list(update_data.values())[0])` — else echo `existing`. -/
def create_or_update_apply (db : DB) (user_id : String) (existing : PyVal)
    (req : ProfileRequest) : Except HTTPErr PyVal × DB :=
  let update_data : List (String × PyVal) :=
    (match req.general with
     | some g => [("general", .dict g)] | Option.none => []) ++
    (match req.goals with
     | some l => [("goals", .list l)] | Option.none => []) ++
    (match req.nutrition with
     | some n => [("nutrition", .dict n)] | Option.none => [])
  match update_data with
  | [] => (.ok (.dict [("userId", .str user_id), ("profile", existing)]), db)
  | (k, v) :: _ =>
    match kwargsOf v with
    | .error e => (.error (500, "Failed to update profile: " ++ e), db)
    | .ok kw =>
      match update_profile db user_id k kw with
      | (.error e, db2) =>
        (.error (500, "Failed to update profile: " ++ e), db2)
      | (.ok updated, db2) =>
        (.ok (.dict [("userId", .str user_id),
          ("profile", .dict updated)]), db2)

/-- `POST /profile` from src/app.py: `user_id = request.userId or uuid4()`;
fetch the profile; when absent run `user_id, existing = create_profile(...)`
(which raises here, see `create_profile` — and whose four-key dict would
fail the unpacking anyway); then apply at most the first supplied group. -/
def create_or_update_profile (db : DB) (fresh_id : String)
    (req : ProfileRequest) : Except HTTPErr PyVal × DB :=
  let user_id :=
    match req.userId with
    | some u => if u.isEmpty then fresh_id else u
    | Option.none => fresh_id
  match fetch_truthy db user_id with
  | some existing => create_or_update_apply db user_id (.dict existing) req
  | Option.none =>
    match create_profile db user_id with
    | (.error e, db2) =>
      (.error (500, "Failed to update profile: " ++ e), db2)
    | (.ok p, db2) =>
      match unpack2keys p with
      | .error e => (.error (500, "Failed to update profile: " ++ e), db2)
      | .ok (uid2, ex2) =>
        create_or_update_apply db2 uid2 (.str ex2) req

/-- A `POST /workout-advice` body. -/
structure AdviceRequest where
  question : String
  profileSummary : Option String
  profile : Option PyDict
  userId : Option String

/-- The `elif request.profile is not None` fallback of the summary
resolution. -/
def summary_from_profile (profile : Option PyDict) : String :=
  match profile with
  | some p => profile_dict_to_string p
  | Option.none => ""

/-- Summary resolution of `/workout-advice`: a truthy `profileSummary` wins,
else flatten `profile` when given, else the empty string. -/
def resolve_profile_summary (profileSummary : Option String)
    (profile : Option PyDict) : String :=
  match profileSummary with
  | some s => if s.isEmpty then summary_from_profile profile else s
  | Option.none => summary_from_profile profile

/-- The context block built from the similar notes: `- ` lines for each
note with truthy `text`, under the fixed header; empty when there are no
notes or no usable lines. -/
def note_context (similar_notes : DB) : String :=
  if similar_notes.isEmpty then ""
  else
    let context_parts :=
      (similar_notes.filter
        (fun n => ((dlookup n "text").map truthy).getD false)).map
        (fun n => "- " ++ pyStr ((dlookup n "text").getD (.str "")))
    if context_parts.isEmpty then ""
    else "\n\n**Relevant context from your notes:**\n" ++
      String.intercalate "\n" context_parts

/-- What `/workout-advice` hands to the AI gateway, plus whether the notes
similarity lookup ran. -/
structure AdvicePrep where
  lookup_performed : Bool
  profile_summary : String
  enhanced_question : String

/-- `/workout-advice` from src/app.py, up to the gateway call: resolve the
summary; only under `if request.userId:` run `search_similar_notes(...,
limit=3)` and append the context block to the question. -/
def workout_advice_prepare (rank : String → DB → DB)
    (failure : Option String) (notes : DB) (req : AdviceRequest) :
    AdvicePrep :=
  let profile_summary :=
    resolve_profile_summary req.profileSummary req.profile
  match req.userId with
  | some uid =>
    if uid.isEmpty then
      ⟨false, profile_summary, req.question⟩
    else
      let similar_notes :=
        search_similar_notes rank failure notes req.question uid 3
      let context := note_context similar_notes
      ⟨true, profile_summary,
       if context.isEmpty then req.question else req.question ++ context⟩
  | Option.none => ⟨false, profile_summary, req.question⟩

/-- The claim-side content test for `_profile_dict_to_string`, written
from the claim's words: some recognized field is present with a value that
renders (is truthy), or some extra field is present with a non-empty
value. -/
def profile_has_content (profile : PyDict) : Bool :=
  recognizedKeys.any (fun k => ((dlookup profile k).map truthy).getD false)
  || profile.any
    (fun e => !(recognizedKeys.contains e.1) && !(isEmptyish e.2))

/-- The old-format response payload of the spec's example:
`{"outputs":[{"outputs":[{"results":{"text":{"data":{"text": t}}}}]}]}`. -/
def nestedPayload (t : String) : PyDict :=
  let h := PyVal.dict [("text", PyVal.str t)]
  let g := PyVal.dict [("data", h)]
  let f := PyVal.dict [("text", g)]
  let e := PyVal.dict [("results", f)]
  let d := PyVal.list [e]
  let c := PyVal.dict [("outputs", d)]
  let b := PyVal.list [c]
  [("outputs", b)]

/-! ## Helper lemmas on Python dicts and strings -/

theorem dlookup_setKey_self (d : PyDict) (k : String) (v : PyVal) :
    dlookup (setKey d k v) k = some v := by
  induction d with
  | nil => simp [setKey, dlookup]
  | cons p rest ih =>
    obtain ⟨k2, w⟩ := p
    by_cases hp : k2 = k
    · simp [setKey, dlookup, hp]
    · simp [setKey, dlookup, hp, ih]

theorem dlookup_setKey_ne (d : PyDict) (k k2 : String) (v : PyVal)
    (hne : k2 ≠ k) : dlookup (setKey d k v) k2 = dlookup d k2 := by
  induction d with
  | nil => simp [setKey, dlookup, Ne.symm hne]
  | cons p rest ih =>
    obtain ⟨k3, w⟩ := p
    by_cases hp : k3 = k
    · subst hp
      simp [setKey, dlookup, Ne.symm hne]
    · by_cases hq : k3 = k2
      · subst hq
        simp [setKey, dlookup, hp, hne]
      · simp [setKey, dlookup, hp, hq, ih]

theorem dlookup_dictUpdate_not_mem (d kw : PyDict) (k : String)
    (h : kw.all (fun q => q.1 != k)) :
    dlookup (dictUpdate d kw) k = dlookup d k := by
  induction kw generalizing d with
  | nil => rfl
  | cons q rest ih =>
    simp only [List.all_cons, Bool.and_eq_true, bne_iff_ne] at h
    show dlookup (dictUpdate (setKey d q.1 q.2) rest) k = dlookup d k
    rw [ih (setKey d q.1 q.2) (by simpa using h.2),
      dlookup_setKey_ne d q.1 k q.2 (Ne.symm h.1)]

theorem dictUpdate_singleton (d : PyDict) (k : String) (v : PyVal) :
    dictUpdate d [(k, v)] = setKey d k v := rfl

/-! ## Claim theorems -/

/-- C1 (amended): AI-gateway response parsing: a dict payload with a
top-level `result` key yields that value as text; otherwise a payload
matching the nested `outputs[0].outputs[0].results.text.data.text` path
yields that nested text; and a payload matching none of the recognized
shapes (`result`, the nested path, `response`, `text`) does NOT raise an
upstream-format error — the parser falls through to
`str(response_payload)` and returns the whole payload's string form. -/
theorem extract_text_shapes (entries : PyDict) :
    (∀ v, dlookup entries "result" = some v →
      extract_text (.dict entries) = .ok (pyStr v)) ∧
    (dlookup entries "result" = Option.none →
      ∀ t, old_format_text entries = some t →
        extract_text (.dict entries) = .ok (pyStr t)) ∧
    (dlookup entries "result" = Option.none →
      old_format_text entries = Option.none →
      dlookup entries "response" = Option.none →
      dlookup entries "text" = Option.none →
      extract_text (.dict entries) = .ok (pyRepr (.dict entries))) := by
  refine ⟨?_, ?_, ?_⟩
  · intro v h
    simp [extract_text, h]
  · intro h t ht
    simp [extract_text, h, ht]
  · intro h1 h2 h3 h4
    simp [extract_text, h1, h2, h3, h4, pyStr]

/-- Witness for `extract_text_shapes`: the spec's own examples —
`{"result": "X"}` parses to `"X"` and the nested old format parses to
`"Y"`. -/
theorem extract_text_shapes_witness :
    extract_text (.dict [("result", PyVal.str "X")]) = .ok "X" ∧
    extract_text (.dict (nestedPayload "Y")) = .ok "Y" :=
  ⟨(extract_text_shapes [("result", PyVal.str "X")]).1 (PyVal.str "X") rfl,
   (extract_text_shapes (nestedPayload "Y")).2.1 rfl (PyVal.str "Y") rfl⟩

/-- C1 counterexample: on the unrecognized payload `\x7b\x7d` (the empty
dict, which matches none of the four shapes) the parser returns the
string form of the payload — it does not raise. -/
theorem extract_text_unrecognized_returns :
    extract_text (PyVal.dict []) = Except.ok "\x7b\x7d" := rfl

/-- C10: response-shape precedence in `_extract_text`: a top-level
`result` key wins over every other shape; with no `result` the nested
old-format path wins; then `response`; then `text` — the shapes are tried
in that fixed order and the first match determines the returned text. -/
theorem extract_text_precedence (entries : PyDict) :
    (∀ v, dlookup entries "result" = some v →
      extract_text (.dict entries) = .ok (pyStr v)) ∧
    (dlookup entries "result" = Option.none →
      ∀ t, old_format_text entries = some t →
        extract_text (.dict entries) = .ok (pyStr t)) ∧
    (dlookup entries "result" = Option.none →
      old_format_text entries = Option.none →
      ∀ v, dlookup entries "response" = some v →
        extract_text (.dict entries) = .ok (pyStr v)) ∧
    (dlookup entries "result" = Option.none →
      old_format_text entries = Option.none →
      dlookup entries "response" = Option.none →
      ∀ v, dlookup entries "text" = some v →
        extract_text (.dict entries) = .ok (pyStr v)) := by
  refine ⟨?_, ?_, ?_, ?_⟩
  · intro v h
    simp [extract_text, h]
  · intro h t ht
    simp [extract_text, h, ht]
  · intro h1 h2 v h3
    simp [extract_text, h1, h2, h3]
  · intro h1 h2 h3 v h4
    simp [extract_text, h1, h2, h3, h4]

/-- Witness for `extract_text_precedence`: a payload carrying all four
shapes parses to the `result` value; dropping the earlier shapes selects
`response`, then `text`. -/
theorem extract_text_precedence_witness :
    extract_text (.dict (("result", PyVal.str "R") :: nestedPayload "Y" ++
      [("response", PyVal.str "P"), ("text", PyVal.str "T")])) = .ok "R" ∧
    extract_text (.dict [("response", PyVal.str "P"),
      ("text", PyVal.str "T")]) = .ok "P" ∧
    extract_text (.dict [("text", PyVal.str "T")]) = .ok "T" :=
  ⟨(extract_text_precedence (("result", PyVal.str "R") :: nestedPayload "Y"
      ++ [("response", PyVal.str "P"), ("text", PyVal.str "T")])).1
      (PyVal.str "R") rfl,
   (extract_text_precedence [("response", PyVal.str "P"),
      ("text", PyVal.str "T")]).2.2.1 rfl rfl (PyVal.str "P") rfl,
   (extract_text_precedence [("text", PyVal.str "T")]).2.2.2 rfl rfl rfl
      (PyVal.str "T") rfl⟩

/-- C2 (code bug): `GET /profile/{userId}` on a never-seen id does NOT
return the default profile: `create_profile` reads `result["id"]` from an
insert response that carries the id only under `status.insertedIds`
(the shape this repository itself decodes in `add_note`), so the handler
raises and answers 500 — after the default document has already been
inserted. Were `create_profile` to return, `user_id, profile =
create_profile(user_id)` would still fail, unpacking a four-key dict into
two names. -/
theorem get_user_profile_fresh_user_fails :
    (get_user_profile [] "u1").1 =
      Except.error (500, "Failed to retrieve profile: KeyError: id") ∧
    (get_user_profile [] "u1").2 = [get_default_profile "u1"] ∧
    (unpack2keys (get_default_profile "u1")).isOk = false :=
  ⟨rfl, rfl, rfl⟩

theorem idMatches_dictUpdate (e sd : PyDict) (user_id : String)
    (hsd : sd.all (fun q => q.1 != "_id")) :
    idMatches (dictUpdate e sd) user_id = idMatches e user_id := by
  unfold idMatches
  rw [dlookup_dictUpdate_not_mem e sd "_id" hsd]

theorem fetch_truthy_of (db : DB) (user_id : String) (e : PyDict)
    (h : get_profile db user_id = some e) (he : e.isEmpty = false) :
    fetch_truthy db user_id = some e := by
  unfold fetch_truthy
  rw [h]
  simp [he]

theorem get_profile_update_one (db : DB) (user_id : String) (e sd : PyDict)
    (h : get_profile db user_id = some e)
    (hid : idMatches (dictUpdate e sd) user_id = true) :
    get_profile (update_one db user_id sd) user_id =
      some (dictUpdate e sd) := by
  induction db with
  | nil => simp [get_profile] at h
  | cons d rest ih =>
    unfold get_profile at h ⊢
    unfold update_one
    by_cases hd : idMatches d user_id = true
    · have hfind : List.find? (fun q => idMatches q user_id) (d :: rest) =
          some d := by simp [hd]
      rw [hfind] at h
      have hde : d = e := by injection h
      subst hde
      rw [if_pos hd]
      exact List.find?_cons_of_pos rest hid
    · have hfind : List.find? (fun q => idMatches q user_id) (d :: rest) =
          List.find? (fun q => idMatches q user_id) rest := by simp [hd]
      rw [hfind] at h
      rw [if_neg hd]
      have hfind2 : List.find? (fun q => idMatches q user_id)
          (d :: update_one rest user_id sd) =
          List.find? (fun q => idMatches q user_id)
          (update_one rest user_id sd) := by simp [hd]
      rw [hfind2]
      exact ih h

/-- C3: for an existing profile, `update_profile` with group `"goals"` and
kwargs `goals=l` replaces the goals list wholesale with `l` — on the
returned profile and on the stored document alike. -/
theorem update_profile_goals_replaces (db : DB) (user_id : String)
    (e : PyDict) (l : List PyVal)
    (h : get_profile db user_id = some e) (he : e.isEmpty = false) :
    (update_profile db user_id "goals" [("goals", PyVal.list l)]).1.map
      (fun p => dlookup p "goals") = .ok (some (.list l)) ∧
    (get_profile
      (update_profile db user_id "goals" [("goals", PyVal.list l)]).2
      user_id).map (fun p => dlookup p "goals") =
      some (some (.list l)) := by
  have hid : idMatches e user_id = true := by
    unfold get_profile at h
    simpa using List.find?_some h
  have hid2 : idMatches (dictUpdate e [("goals", PyVal.list l)]) user_id
      = true := by
    rw [idMatches_dictUpdate e [("goals", PyVal.list l)] user_id
      (by simp)]
    exact hid
  have hred : update_profile db user_id "goals" [("goals", PyVal.list l)] =
      (.ok (setKey e "goals" (.list l)),
       update_one db user_id [("goals", PyVal.list l)]) := by
    unfold update_profile
    rw [fetch_truthy_of db user_id e h he]
    simp [dlookup]
  rw [hred]
  constructor
  · simp [Except.map, dlookup_setKey_self]
  · rw [get_profile_update_one db user_id e _ h hid2]
    simp [dictUpdate_singleton, dlookup_setKey_self]

/-- Witness for `update_profile_goals_replaces`: the spec's example —
existing goals `["A"]` updated with `["B","C"]` become exactly
`["B","C"]`, not the concatenation. -/
theorem update_profile_goals_replaces_witness :
    (update_profile
      [setKey (get_default_profile "u") "goals" (PyVal.list [PyVal.str "A"])]
      "u" "goals"
      [("goals", PyVal.list [PyVal.str "B", PyVal.str "C"])]).1.map
      (fun p => dlookup p "goals") =
      Except.ok (some (PyVal.list [PyVal.str "B", PyVal.str "C"])) :=
  (update_profile_goals_replaces
    [setKey (get_default_profile "u") "goals" (PyVal.list [PyVal.str "A"])]
    "u"
    (setKey (get_default_profile "u") "goals" (PyVal.list [PyVal.str "A"]))
    [PyVal.str "B", PyVal.str "C"] rfl rfl).1

/-- C4: for an existing profile whose nutrition group is a dict,
`update_profile` with group `"nutrition"` shallow-merges the supplied
fields into the existing nutrition sub-object, and every field not
mentioned in the update keeps its value. -/
theorem update_profile_nutrition_merges (db : DB) (user_id : String)
    (e sub kw : PyDict)
    (h : get_profile db user_id = some e) (he : e.isEmpty = false)
    (hn : dlookup e "nutrition" = some (.dict sub)) :
    (update_profile db user_id "nutrition" kw).1.map
      (fun p => dlookup p "nutrition") =
      .ok (some (.dict (dictUpdate sub kw))) ∧
    (∀ k2, kw.all (fun q => q.1 != k2) →
      dlookup (dictUpdate sub kw) k2 = dlookup sub k2) := by
  have hred : update_profile db user_id "nutrition" kw =
      (.ok (setKey e "nutrition" (.dict (dictUpdate sub kw))),
       update_one db user_id [("nutrition", .dict (dictUpdate sub kw))]) := by
    unfold update_profile
    rw [fetch_truthy_of db user_id e h he]
    simp [update_profile_sub, hn]
  constructor
  · rw [hred]
    simp [Except.map, dlookup_setKey_self]
  · intro k2 hk
    exact dlookup_dictUpdate_not_mem sub kw k2 hk

/-- Witness for `update_profile_nutrition_merges`: the spec's example —
nutrition `{calories: 2000, protein: 140}` updated with `{protein: 150}`
becomes `{calories: 2000, protein: 150}`. -/
theorem update_profile_nutrition_merges_witness :
    (update_profile
      [setKey (get_default_profile "u") "nutrition"
        (PyVal.dict [("calories", PyVal.int 2000),
          ("protein", PyVal.int 140)])]
      "u" "nutrition" [("protein", PyVal.int 150)]).1.map
      (fun p => dlookup p "nutrition") =
      Except.ok (some (PyVal.dict [("calories", PyVal.int 2000),
        ("protein", PyVal.int 150)])) :=
  (update_profile_nutrition_merges
    [setKey (get_default_profile "u") "nutrition"
      (PyVal.dict [("calories", PyVal.int 2000),
        ("protein", PyVal.int 140)])]
    "u"
    (setKey (get_default_profile "u") "nutrition"
      (PyVal.dict [("calories", PyVal.int 2000),
        ("protein", PyVal.int 140)]))
    [("calories", PyVal.int 2000), ("protein", PyVal.int 140)]
    [("protein", PyVal.int 150)] rfl rfl rfl).1

/-- C5: `search_similar_notes` returns at most `limit` notes; when the
store's ranking returns (a reordering of) the filtered documents, every
returned note carries `user_id` equal to the argument; and on any failure
of the underlying store query it returns the empty sequence. -/
theorem search_similar_notes_spec (rank : String → DB → DB) (notes : DB)
    (search_text user_id : String) (limit : Nat)
    (hrank : ∀ s l x, x ∈ rank s l → x ∈ l) :
    (search_similar_notes rank Option.none notes search_text user_id
      limit).length ≤ limit ∧
    (∀ n ∈ search_similar_notes rank Option.none notes search_text user_id
      limit, userMatches n user_id = true) ∧
    (∀ err, search_similar_notes rank (some err) notes search_text user_id
      limit = []) := by
  refine ⟨?_, ?_, ?_⟩
  · simp only [search_similar_notes]
    exact List.length_take_le limit
      (notes_find notes user_id search_text rank)
  · intro n hn
    simp only [search_similar_notes] at hn
    have h1 : n ∈ notes_find notes user_id search_text rank :=
      List.mem_of_mem_take hn
    have h2 : n ∈ notes.filter (fun q => userMatches q user_id) :=
      hrank search_text _ n h1
    exact (List.mem_filter.mp h2).2
  · intro err
    rfl

/-- Witness for `search_similar_notes_spec`: identity ranking over two
notes of user `"u"` and one of `"v"`, limit 1. -/
theorem search_similar_notes_spec_witness :
    (search_similar_notes (fun _ l => l) Option.none
      [[("user_id", PyVal.str "u"), ("text", PyVal.str "n1")],
       [("user_id", PyVal.str "v"), ("text", PyVal.str "n2")],
       [("user_id", PyVal.str "u"), ("text", PyVal.str "n3")]]
      "q" "u" 1).length ≤ 1 ∧
    search_similar_notes (fun _ l => l) (some "timeout")
      [[("user_id", PyVal.str "u"), ("text", PyVal.str "n1")]]
      "q" "u" 1 = [] :=
  ⟨(search_similar_notes_spec (fun _ l => l)
      [[("user_id", PyVal.str "u"), ("text", PyVal.str "n1")],
       [("user_id", PyVal.str "v"), ("text", PyVal.str "n2")],
       [("user_id", PyVal.str "u"), ("text", PyVal.str "n3")]]
      "q" "u" 1 (fun _ _ _ hx => hx)).1,
   (search_similar_notes_spec (fun _ l => l)
      [[("user_id", PyVal.str "u"), ("text", PyVal.str "n1")]]
      "q" "u" 1 (fun _ _ _ hx => hx)).2.2 "timeout"⟩

/-- C6 counterexample: with `LANGFLOW_BASE_URL` absent from the
environment (API key present), the gateway does NOT fail with a
configuration error — `os.environ.get` falls back to the default
`http://localhost:7860` and both calls proceed to issue the outbound
request against it. -/
theorem call_flow_no_base_url_attempts_request :
    get_macro_plan_request
      (fun name => if name = "LANGFLOW_API_KEY" then some "test-key"
        else Option.none) =
      .ok "http://localhost:7860/api/v1/run/03ffb633-f1e5-42d6-84c9-e02b4cee1f41" ∧
    get_workout_recommendation_request
      (fun name => if name = "LANGFLOW_API_KEY" then some "test-key"
        else Option.none) =
      .ok "http://localhost:7860/api/v1/run/ask-ai-v2-1" :=
  ⟨rfl, rfl⟩

/-- C6 (amended): both AI-gateway calls fail with a configuration error
(`ValueError`), before any outbound request is attempted, when the API key
is absent or empty; but when the base URL is absent they do not fail —
the URL falls back to the default `http://localhost:7860` and the request
is attempted. -/
theorem gateway_config_checks (env : Env) :
    (envFalsy (env "LANGFLOW_API_KEY") = true →
      (∃ e1, get_workout_recommendation_request env = .error e1) ∧
      (∃ e2, get_macro_plan_request env = .error e2)) ∧
    (env "LANGFLOW_BASE_URL" = Option.none →
      envFalsy (env "LANGFLOW_API_KEY") = false →
      get_macro_plan_request env =
        .ok "http://localhost:7860/api/v1/run/03ffb633-f1e5-42d6-84c9-e02b4cee1f41" ∧
      get_workout_recommendation_request env =
        .ok "http://localhost:7860/api/v1/run/ask-ai-v2-1") := by
  constructor
  · intro hkey
    by_cases hbase :
        ((env "LANGFLOW_BASE_URL").getD "http://localhost:7860").isEmpty
    · constructor
      · exact ⟨"Failed to get workout recommendation: " ++
          "LANGFLOW_BASE_URL environment variable is not set.", by
          simp [get_workout_recommendation_request, call_flow_request,
            hbase]⟩
      · exact ⟨"LANGFLOW_BASE_URL environment variable is not set.", by
          simp [get_macro_plan_request, call_flow_request, hbase]⟩
    · constructor
      · exact ⟨"Failed to get workout recommendation: " ++
          "LANGFLOW_API_KEY environment variable is not set.", by
          simp [get_workout_recommendation_request, call_flow_request,
            hbase, get_headers, hkey]⟩
      · exact ⟨"LANGFLOW_API_KEY environment variable is not set.", by
          simp [get_macro_plan_request, call_flow_request, hbase,
            get_headers, hkey]⟩
  · intro hbase hkey
    constructor
    · simp [get_macro_plan_request, call_flow_request, hbase, get_headers,
        hkey]
      rfl
    · simp [get_workout_recommendation_request, call_flow_request, hbase,
        get_headers, hkey]
      rfl

/-- Witness for `gateway_config_checks`: the empty environment makes both
gateway calls fail before any request. -/
theorem gateway_config_checks_witness :
    (∃ e1, get_workout_recommendation_request (fun _ => Option.none) =
      .error e1) ∧
    (∃ e2, get_macro_plan_request (fun _ => Option.none) = .error e2) :=
  (gateway_config_checks (fun _ => Option.none)).1 rfl

theorem segOf_eq_nil_iff (profile : PyDict) (k : String)
    (fmt : PyVal → String) :
    segOf profile k fmt = [] ↔
      ((dlookup profile k).map truthy).getD false = false := by
  unfold segOf
  cases hdl : dlookup profile k with
  | none => simp
  | some v => cases hv : truthy v <;> simp [hv]

theorem profileSegments_eq_nil_iff (profile : PyDict) :
    profileSegments profile = [] ↔
      profile_has_content profile = false := by
  unfold profileSegments profile_has_content recognizedKeys
  simp only [List.append_eq_nil, segOf_eq_nil_iff, List.any_cons,
    List.any_nil, Bool.or_eq_false_iff, List.map_eq_nil_iff,
    List.filter_eq_nil_iff, List.any_eq_false]
  tauto

theorem intercalate_go_length (sep : String) (l : List String)
    (acc : String) :
    acc.length ≤ (String.intercalate.go acc sep l).length := by
  induction l generalizing acc with
  | nil => simp [String.intercalate.go]
  | cons a as ih =>
    have h1 : acc.length ≤ (acc ++ sep ++ a).length := by
      simp only [String.length_append]
      omega
    exact le_trans h1 (ih (acc ++ sep ++ a))

theorem intercalate_ne_empty (sep : String) (l : List String)
    (hne : l ≠ []) (hpos : ∀ s ∈ l, 0 < s.length) :
    String.intercalate sep l ≠ "" := by
  cases l with
  | nil => exact absurd rfl hne
  | cons a as =>
    have h1 : 0 < a.length := hpos a (List.mem_cons_self a as)
    have h2 : a.length ≤ (String.intercalate sep (a :: as)).length := by
      show a.length ≤ (String.intercalate.go a sep as).length
      exact intercalate_go_length sep as a
    intro hcontra
    rw [hcontra] at h2
    have h3 : ("" : String).length = 0 := rfl
    rw [h3] at h2
    omega

theorem length_append_pos_left (s t : String) (h : 0 < s.length) :
    0 < (s ++ t).length := by
  rw [String.length_append]
  omega

theorem length_append_pos_right (s t : String) (h : 0 < t.length) :
    0 < (s ++ t).length := by
  rw [String.length_append]
  omega

theorem mem_segOf (profile : PyDict) (k : String) (fmt : PyVal → String)
    (s : String) (hs : s ∈ segOf profile k fmt) : ∃ v, s = fmt v := by
  unfold segOf at hs
  cases hdl : dlookup profile k with
  | none =>
    rw [hdl] at hs
    simp at hs
  | some v =>
    rw [hdl] at hs
    by_cases ht : truthy v
    · simp [ht] at hs
      exact ⟨v, hs⟩
    · simp [ht] at hs

theorem length_pos_of_mem_profileSegments (profile : PyDict) (s : String)
    (hs : s ∈ profileSegments profile) : 0 < s.length := by
  unfold profileSegments at hs
  simp only [List.mem_append] at hs
  rcases hs with ((((((((h | h) | h) | h) | h) | h) | h) | h) | h)
  · obtain ⟨v, rfl⟩ := mem_segOf _ _ _ _ h
    exact length_append_pos_left _ _ (by decide)
  · obtain ⟨v, rfl⟩ := mem_segOf _ _ _ _ h
    exact length_append_pos_left _ _ (by decide)
  · obtain ⟨v, rfl⟩ := mem_segOf _ _ _ _ h
    exact length_append_pos_left _ _ (by decide)
  · obtain ⟨v, rfl⟩ := mem_segOf _ _ _ _ h
    exact length_append_pos_left _ _ (length_append_pos_left _ _ (by decide))
  · obtain ⟨v, rfl⟩ := mem_segOf _ _ _ _ h
    exact length_append_pos_left _ _ (length_append_pos_left _ _ (by decide))
  · obtain ⟨v, rfl⟩ := mem_segOf _ _ _ _ h
    exact length_append_pos_left _ _ (length_append_pos_left _ _ (by decide))
  · obtain ⟨v, rfl⟩ := mem_segOf _ _ _ _ h
    exact length_append_pos_left _ _ (by decide)
  · obtain ⟨v, rfl⟩ := mem_segOf _ _ _ _ h
    exact length_append_pos_left _ _ (by decide)
  · simp only [List.mem_map] at h
    obtain ⟨e, _, rfl⟩ := h
    exact length_append_pos_left _ _
      (length_append_pos_right _ _ (by decide))

theorem profile_dict_to_string_eq (profile : PyDict) :
    profile_dict_to_string profile =
      if (profileSegments profile).isEmpty then "No profile details provided"
      else String.intercalate ", " (profileSegments profile) := rfl

/-- C7: flattening a profile dictionary never produces the empty string:
when at least one recognized field is present with a value that renders,
or at least one extra field is present with a non-empty value, the result
is the comma-joined list of the labeled fragments; otherwise it is the
fixed placeholder `"No profile details provided"`. -/
theorem profile_dict_to_string_spec (profile : PyDict) :
    profile_dict_to_string profile ≠ "" ∧
    (profile_has_content profile = true →
      profile_dict_to_string profile =
        String.intercalate ", " (profileSegments profile)) ∧
    (profile_has_content profile = false →
      profile_dict_to_string profile = "No profile details provided") := by
  by_cases hc : profile_has_content profile = true
  · have hseg : profileSegments profile ≠ [] := by
      intro hnil
      rw [(profileSegments_eq_nil_iff profile).mp hnil] at hc
      exact Bool.false_ne_true hc
    have hne : (profileSegments profile).isEmpty = false :=
      List.isEmpty_eq_false.mpr hseg
    have heq : profile_dict_to_string profile =
        String.intercalate ", " (profileSegments profile) := by
      rw [profile_dict_to_string_eq, hne]
      rfl
    refine ⟨?_, fun _ => heq, fun hcf => ?_⟩
    · rw [heq]
      exact intercalate_ne_empty ", " (profileSegments profile) hseg
        (fun s hs => length_pos_of_mem_profileSegments profile s hs)
    · rw [hcf] at hc
      exact absurd hc Bool.false_ne_true
  · have hcf : profile_has_content profile = false := by
      cases hb : profile_has_content profile
      · rfl
      · exact absurd hb hc
    have hseg : profileSegments profile = [] :=
      (profileSegments_eq_nil_iff profile).mpr hcf
    have heq : profile_dict_to_string profile =
        "No profile details provided" := by
      rw [profile_dict_to_string_eq, hseg]
      rfl
    exact ⟨by rw [heq]; decide, fun hct => absurd hct hc, fun _ => heq⟩

/-- Witness for `profile_dict_to_string_spec`: a profile with one
recognized field flattens to its fragment; the empty profile flattens to
the placeholder. -/
theorem profile_dict_to_string_spec_witness :
    profile_dict_to_string [("name", PyVal.str "Bo")] = "Name: Bo" ∧
    profile_dict_to_string [] = "No profile details provided" :=
  ⟨by
    have h := (profile_dict_to_string_spec
      [("name", PyVal.str "Bo")]).2.1 rfl
    rw [h]
    rfl,
   (profile_dict_to_string_spec []).2.2 rfl⟩

/-- C8: a `/workout-advice` request whose `userId` is absent (or the empty
string) never performs the notes similarity lookup, and the question
handed to the AI gateway is exactly the request's question, with no
appended context block. -/
theorem workout_advice_no_user_id (rank : String → DB → DB)
    (failure : Option String) (notes : DB) (req : AdviceRequest)
    (h : req.userId = Option.none ∨ req.userId = some "") :
    (workout_advice_prepare rank failure notes req).lookup_performed =
      false ∧
    (workout_advice_prepare rank failure notes req).enhanced_question =
      req.question := by
  rcases h with h | h
  · simp [workout_advice_prepare, h]
  · have hemp : ("" : String).isEmpty = true := rfl
    simp [workout_advice_prepare, h, hemp]

/-- Witness for `workout_advice_no_user_id`: a request with no `userId`. -/
theorem workout_advice_no_user_id_witness :
    (workout_advice_prepare (fun _ l => l) Option.none []
      ⟨"Q", Option.none, Option.none, Option.none⟩).lookup_performed =
      false ∧
    (workout_advice_prepare (fun _ l => l) Option.none []
      ⟨"Q", Option.none, Option.none, Option.none⟩).enhanced_question =
      "Q" :=
  workout_advice_no_user_id (fun _ l => l) Option.none []
    ⟨"Q", Option.none, Option.none, Option.none⟩ (Or.inl rfl)

/-- C9 counterexample: on an existing profile `"u"`, a `POST /profile`
supplying `goals` and `nutrition` (no `general`) applies NO group: the
first group in the fixed order is `goals`, whose value is a list, and
`update_profile(..., **list)` raises `TypeError`, so the endpoint answers
500 and the store is untouched — against the claim that the first present
group is applied. -/
theorem create_or_update_goals_first_fails :
    (create_or_update_profile [get_default_profile "u"] "fresh"
      ⟨some "u", Option.none, some [PyVal.str "B"],
       some [("protein", PyVal.int 150)]⟩).1 =
      .error (500,
        "Failed to update profile: TypeError: argument after ** must be a mapping") ∧
    (create_or_update_profile [get_default_profile "u"] "fresh"
      ⟨some "u", Option.none, some [PyVal.str "B"],
       some [("protein", PyVal.int 150)]⟩).2 =
      [get_default_profile "u"] :=
  ⟨rfl, rfl⟩

/-- C9 (amended): on an existing profile, a multi-group `POST /profile`
applies at most one group: when `general` is supplied, only `general` is
applied — supplied `goals` and `nutrition` are silently ignored and the
other sub-objects are unchanged in both the response and the store; when
`general` is absent and both `goals` and `nutrition` are supplied, the
first group in order is `goals`, whose list value fails `**`-unpacking:
the endpoint answers 500 and no group is applied. -/
theorem create_or_update_first_group (db : DB) (uid : String) (e : PyDict)
    (gsub g : PyDict) (gl : List PyVal) (nt : PyDict) (fresh : String)
    (hu : uid.isEmpty = false)
    (h : get_profile db uid = some e) (he : e.isEmpty = false)
    (hg : dlookup e "general" = some (.dict gsub)) :
    ((create_or_update_profile db fresh
        ⟨some uid, some g, some gl, some nt⟩).1 =
      .ok (.dict [("userId", .str uid),
        ("profile", .dict (setKey e "general"
          (.dict (dictUpdate gsub g))))]) ∧
     dlookup (setKey e "general" (.dict (dictUpdate gsub g))) "goals" =
       dlookup e "goals" ∧
     dlookup (setKey e "general" (.dict (dictUpdate gsub g))) "nutrition" =
       dlookup e "nutrition" ∧
     (get_profile (create_or_update_profile db fresh
        ⟨some uid, some g, some gl, some nt⟩).2 uid).map
       (fun p => (dlookup p "goals", dlookup p "nutrition")) =
       some (dlookup e "goals", dlookup e "nutrition")) ∧
    ((create_or_update_profile db fresh
        ⟨some uid, Option.none, some gl, some nt⟩).1 =
      .error (500,
        "Failed to update profile: TypeError: argument after ** must be a mapping") ∧
     (create_or_update_profile db fresh
        ⟨some uid, Option.none, some gl, some nt⟩).2 = db) := by
  have hft := fetch_truthy_of db uid e h he
  have hid : idMatches (dictUpdate e [("general",
      PyVal.dict (dictUpdate gsub g))]) uid = true := by
    rw [idMatches_dictUpdate e _ uid (by simp)]
    unfold get_profile at h
    simpa using List.find?_some h
  have hred : create_or_update_profile db fresh
      ⟨some uid, some g, some gl, some nt⟩ =
      (.ok (.dict [("userId", .str uid),
        ("profile", .dict (setKey e "general"
          (.dict (dictUpdate gsub g))))]),
       update_one db uid [("general", .dict (dictUpdate gsub g))]) := by
    unfold create_or_update_profile
    simp only [hu, Bool.false_eq_true, if_false]
    rw [hft]
    unfold create_or_update_apply
    simp only [kwargsOf]
    unfold update_profile
    rw [hft]
    simp [update_profile_sub, hg]
  have hred2 : create_or_update_profile db fresh
      ⟨some uid, Option.none, some gl, some nt⟩ =
      (.error (500,
        "Failed to update profile: TypeError: argument after ** must be a mapping"),
       db) := by
    unfold create_or_update_profile
    simp only [hu, Bool.false_eq_true, if_false]
    rw [hft]
    unfold create_or_update_apply
    simp [kwargsOf]
  refine ⟨⟨?_, ?_, ?_, ?_⟩, ?_, ?_⟩
  · rw [hred]
  · exact dlookup_setKey_ne e "general" "goals" _ (by decide)
  · exact dlookup_setKey_ne e "general" "nutrition" _ (by decide)
  · rw [hred]
    simp only []
    rw [get_profile_update_one db uid e _ h hid]
    rw [dictUpdate_singleton]
    have hms : Option.map
        (fun p => (dlookup p "goals", dlookup p "nutrition"))
        (some (setKey e "general" (PyVal.dict (dictUpdate gsub g)))) =
      some (dlookup (setKey e "general"
          (PyVal.dict (dictUpdate gsub g))) "goals",
        dlookup (setKey e "general"
          (PyVal.dict (dictUpdate gsub g))) "nutrition") := rfl
    rw [hms, dlookup_setKey_ne e "general" "goals" _ (by decide),
      dlookup_setKey_ne e "general" "nutrition" _ (by decide)]
  · rw [hred2]
  · rw [hred2]

/-- Witness for `create_or_update_first_group`: the default profile of
user `"u"` — supplying all three groups leaves the goals sub-object
unchanged, and supplying `goals` with `nutrition` (no `general`) leaves
the store untouched. -/
theorem create_or_update_first_group_witness :
    dlookup (setKey (get_default_profile "u") "general"
      (PyVal.dict (dictUpdate
        [("name", PyVal.str ""), ("age", PyVal.int 30),
         ("weight", PyVal.int 70), ("height", PyVal.int 170),
         ("activity_level", PyVal.str "Moderately Active"),
         ("gender", PyVal.str "Male")]
        [("age", PyVal.int 35)]))) "goals" =
      dlookup (get_default_profile "u") "goals" ∧
    (create_or_update_profile [get_default_profile "u"] "f"
      ⟨some "u", Option.none, some [PyVal.str "B"],
       some [("protein", PyVal.int 150)]⟩).2 = [get_default_profile "u"] :=
  ⟨(create_or_update_first_group [get_default_profile "u"] "u"
      (get_default_profile "u")
      [("name", PyVal.str ""), ("age", PyVal.int 30),
       ("weight", PyVal.int 70), ("height", PyVal.int 170),
       ("activity_level", PyVal.str "Moderately Active"),
       ("gender", PyVal.str "Male")]
      [("age", PyVal.int 35)] [PyVal.str "B"]
      [("protein", PyVal.int 150)] "f" rfl rfl rfl rfl).1.2.1,
   (create_or_update_first_group [get_default_profile "u"] "u"
      (get_default_profile "u")
      [("name", PyVal.str ""), ("age", PyVal.int 30),
       ("weight", PyVal.int 70), ("height", PyVal.int 170),
       ("activity_level", PyVal.str "Moderately Active"),
       ("gender", PyVal.str "Male")]
      [("age", PyVal.int 35)] [PyVal.str "B"]
      [("protein", PyVal.int 150)] "f" rfl rfl rfl rfl).2.2⟩
